import Mathlib

/-!
Shallow embedding of the local list-persistence layer of the AniToWatch
Electron application (class `DataManager` in `main.js`) together with the
renderer-side localStorage fallback paths (`search.js`, the watchlist and
favorites controllers): the data model, an abstract file-state model, and
the CRUD operations exposed over the IPC bridge, with theorems settling the
spec's claims about them.

Every IPC handler in `main.js` (lines 78-121) constructs a fresh
`DataManager` through the getters at lines 124-134; the constructor runs
`ensureDataDirectory` before the method body, so each modelled operation is
the composition of `ensureDataDirectory` with the corresponding method.

Timestamps (`Date.now().toString()`, `new Date().toISOString()`) are ambient
inputs and appear as explicit `String` parameters.  Numeric catalog fields
are modelled as `Int`; write failures of `fs.writeFileSync` are modelled by
a boolean `wf` ("writes fail") threaded through each operation, a failed
write leaving the file with its prior content.
-/

namespace AniToWatch

/-- Raw anime record from the external catalog API, restricted to the fields
`DataManager.addToWatchlist` (main.js:209-221) projects.  A field the code
guards with a `||` or `?.` default is optional here. -/
structure Anime where
  mal_id : Int
  title : Option String
  image : Option String
  episodes : Option Int
  score : Option Int
deriving Repr, DecidableEq

/-- Persisted watchlist entry, the `animeItem` shape of main.js:209-221. -/
structure Entry where
  id : String
  mal_id : Int
  title : Option String
  image : Option String
  episodes : Int
  score : Int
  episodes_watched : Int
  status : String
  rating : Int
  notes : String
  added_date : String
deriving Repr, DecidableEq

/-- Raw manga record, restricted to the fields `DataManager.addToReadingList`
(main.js:243-255) projects. -/
structure Manga where
  mal_id : Int
  title : Option String
  image : Option String
  chapters : Option Int
  score : Option Int
deriving Repr, DecidableEq

/-- Persisted reading-list entry, the `mangaItem` shape of main.js:243-255. -/
structure REntry where
  id : String
  mal_id : Int
  title : Option String
  image : Option String
  chapters : Int
  score : Int
  chapters_read : Int
  status : String
  rating : Int
  notes : String
  added_date : String
deriving Repr, DecidableEq

/-- Raw character record, restricted to the fields
`DataManager.addToFavorites` (main.js:276-284) projects; `animeTitle` stands
for `character.anime?.[0]?.anime?.title`. -/
structure Character where
  mal_id : Int
  name : Option String
  image : Option String
  animeTitle : Option String
  favorites : Option Int
deriving Repr, DecidableEq

/-- Persisted favorites entry, the `characterItem` shape of
main.js:276-284. -/
structure FEntry where
  id : String
  mal_id : Int
  name : Option String
  image : Option String
  anime : String
  favorites : Int
  added_date : String
deriving Repr, DecidableEq

/-- Abstract state of one list kind's backing JSON file.  The constructors
are exactly the cases `DataManager.getWatchlist` (main.js:166-192)
distinguishes: the file is missing; it exists with empty or whitespace-only
content (`!data.trim()`); its content parses as a JSON array of entries; or
`JSON.parse` throws on its (non-blank) content. -/
inductive FileState (α : Type) where
  | missing : FileState α
  | blank : FileState α
  | valid : List α → FileState α
  | corrupt : FileState α
deriving Repr, DecidableEq

/-- Result of one IPC-level store operation: the value returned to the
renderer (a thrown error modelled as `Except.error ()`) together with the
state of the backing file after the operation. -/
structure OpResult (α : Type) where
  ret : Except Unit (List α)
  file : FileState α
deriving Repr

/-- Models `DataManager.saveData` (main.js:359-368): serialize `es` and
overwrite the backing file; a failing write throws, the file keeping its
prior content (the caller's `fs` is retained on `error`). -/
def saveData {α : Type} (wf : Bool) (es : List α) : Except Unit (FileState α) :=
  if wf then .error () else .ok (.valid es)

/-- Models `DataManager.ensureDataDirectory` (main.js:151-161), run by the
constructor at the start of every operation: a missing backing file is
created holding the empty JSON array via `this.saveData([])`; an existing
file is untouched. -/
def ensureDataDirectory {α : Type} (wf : Bool) : FileState α → Except Unit (FileState α)
  | .missing => saveData wf []
  | fs => .ok fs

/-- Models the body of `DataManager.getWatchlist` (main.js:166-192).
Missing file: return `[]` (this branch performs no write).  Blank content:
return `[]` without touching the file.  Parsable array: return it.
Unparsable content: the catch block resets the file via `saveData([])` and
returns `[]`; if that reset write itself throws, the error propagates out of
the method.  `getReadingList` and `getFavorites` (main.js:194-200) delegate
to this same body. -/
def getWatchlistM {α : Type} (wf : Bool) : FileState α → OpResult α
  | .missing => ⟨.ok [], .missing⟩
  | .blank => ⟨.ok [], .blank⟩
  | .valid es => ⟨.ok es, .valid es⟩
  | .corrupt =>
    match saveData wf ([] : List α) with
    | .error _ => ⟨.error (), .corrupt⟩
    | .ok fs2 => ⟨.ok [], fs2⟩

/-- Shared body of `DataManager.addToWatchlist` / `addToReadingList` /
`addToFavorites` (main.js:205-299), which differ only in the item they
build: load the list, append the new item only when
`!list.find(a => a.mal_id === record.mal_id)`, persist when appended, and
return the (possibly extended) full list.  `key` projects an entry's
`mal_id` and `rid` is the raw record's `mal_id`. -/
def addItemM {α : Type} (key : α → Int) (item : α) (rid : Int) (wf : Bool)
    (fs : FileState α) : OpResult α :=
  match getWatchlistM wf fs with
  | ⟨.error _, fs1⟩ => ⟨.error (), fs1⟩
  | ⟨.ok l, fs1⟩ =>
    if (l.find? (fun a => key a == rid)).isNone then
      match saveData wf (l ++ [item]) with
      | .error _ => ⟨.error (), fs1⟩
      | .ok fs2 => ⟨.ok (l ++ [item]), fs2⟩
    else ⟨.ok l, fs1⟩

/-- Models the `animeItem` object literal of `DataManager.addToWatchlist`
(main.js:209-221): `now` stands for `Date.now().toString()` and `date` for
`new Date().toISOString()`; `episodes` and `score` default absent values to
0 via `||`, `episodes_watched`/`rating` start at 0, `status` at
`"planning"`, `notes` empty. -/
def mkAnimeItem (now date : String) (a : Anime) : Entry :=
  { id := now
    mal_id := a.mal_id
    title := a.title
    image := a.image
    episodes := a.episodes.getD 0
    score := a.score.getD 0
    episodes_watched := 0
    status := "planning"
    rating := 0
    notes := ""
    added_date := date }

/-- Models the `mangaItem` object literal of `DataManager.addToReadingList`
(main.js:243-255). -/
def mkMangaItem (now date : String) (m : Manga) : REntry :=
  { id := now
    mal_id := m.mal_id
    title := m.title
    image := m.image
    chapters := m.chapters.getD 0
    score := m.score.getD 0
    chapters_read := 0
    status := "planning"
    rating := 0
    notes := ""
    added_date := date }

/-- Models the `characterItem` object literal of `DataManager.addToFavorites`
(main.js:276-284); `anime` defaults to `'Unknown'` and `favorites` to 0. -/
def mkCharacterItem (now date : String) (c : Character) : FEntry :=
  { id := now
    mal_id := c.mal_id
    name := c.name
    image := c.image
    anime := c.animeTitle.getD "Unknown"
    favorites := c.favorites.getD 0
    added_date := date }

/-- Partial field set passed to `update-watchlist`.  The JS shallow merge
`{ ...watchlist[index], ...updates }` (main.js:341) lets the update object
supply any of the entry's fields, the identity fields included; `none` means
the field is absent from the update object. -/
structure Updates where
  id : Option String := none
  mal_id : Option Int := none
  title : Option (Option String) := none
  image : Option (Option String) := none
  episodes : Option Int := none
  score : Option Int := none
  episodes_watched : Option Int := none
  status : Option String := none
  rating : Option Int := none
  notes : Option String := none
  added_date : Option String := none
deriving Repr, DecidableEq

/-- Models the JS spread merge `{ ...e, ...u }` of main.js:341: every field
the update object supplies overwrites, every absent field keeps the entry's
prior value. -/
def mergeEntry (e : Entry) (u : Updates) : Entry :=
  { id := u.id.getD e.id
    mal_id := u.mal_id.getD e.mal_id
    title := u.title.getD e.title
    image := u.image.getD e.image
    episodes := u.episodes.getD e.episodes
    score := u.score.getD e.score
    episodes_watched := u.episodes_watched.getD e.episodes_watched
    status := u.status.getD e.status
    rating := u.rating.getD e.rating
    notes := u.notes.getD e.notes
    added_date := u.added_date.getD e.added_date }

/-- Placeholder entry for `List.getD`; `updateWatchlistM` only reads an index
produced by `findIdx?`, which is always in bounds, so this value is never
observed. -/
def dEntry : Entry :=
  { id := ""
    mal_id := 0
    title := none
    image := none
    episodes := 0
    score := 0
    episodes_watched := 0
    status := ""
    rating := 0
    notes := ""
    added_date := "" }

/-- Models the body of `DataManager.updateWatchlist` (main.js:334-354):
locate the first entry with the given `mal_id` via `findIndex`; when found,
shallow-merge the updates into it and persist; when not found, persist
nothing and return the list as read. -/
def updateWatchlistM (wf : Bool) (fs : FileState Entry) (id : Int)
    (u : Updates) : OpResult Entry :=
  match getWatchlistM wf fs with
  | ⟨.error _, fs1⟩ => ⟨.error (), fs1⟩
  | ⟨.ok wl, fs1⟩ =>
    match wl.findIdx? (fun a => a.mal_id == id) with
    | some index =>
      let wl2 := wl.set index (mergeEntry (wl.getD index dEntry) u)
      match saveData wf wl2 with
      | .error _ => ⟨.error (), fs1⟩
      | .ok fs2 => ⟨.ok wl2, fs2⟩
    | none => ⟨.ok wl, fs1⟩

/-- Models the body of `DataManager.removeFromWatchlist` (main.js:304-321),
shared by `removeFromReadingList` and `removeFromFavorites`
(main.js:323-329): filter out every entry whose `mal_id` matches, persist
the result unconditionally, and return it. -/
def removeFromWatchlistM {α : Type} (key : α → Int) (wf : Bool)
    (fs : FileState α) (id : Int) : OpResult α :=
  match getWatchlistM wf fs with
  | ⟨.error _, fs1⟩ => ⟨.error (), fs1⟩
  | ⟨.ok l, fs1⟩ =>
    let l2 := l.filter (fun a => key a != id)
    match saveData wf l2 with
    | .error _ => ⟨.error (), fs1⟩
    | .ok fs2 => ⟨.ok l2, fs2⟩

/-- IPC-level `get-*` handler (main.js:80-120): fresh `DataManager`
construction (`ensureDataDirectory`) followed by the get body. -/
def getOp {α : Type} (wf : Bool) (fs : FileState α) : OpResult α :=
  match ensureDataDirectory wf fs with
  | .error _ => ⟨.error (), fs⟩
  | .ok fs1 => getWatchlistM wf fs1

/-- IPC-level `add-to-watchlist` handler: constructor then
`addToWatchlist(anime)` (main.js:205-237). -/
def addOp (now date : String) (wf : Bool) (fs : FileState Entry)
    (a : Anime) : OpResult Entry :=
  match ensureDataDirectory wf fs with
  | .error _ => ⟨.error (), fs⟩
  | .ok fs1 => addItemM Entry.mal_id (mkAnimeItem now date a) a.mal_id wf fs1

/-- IPC-level `add-to-readinglist` handler: constructor then
`addToReadingList(manga)` (main.js:239-270). -/
def addReadingOp (now date : String) (wf : Bool) (fs : FileState REntry)
    (m : Manga) : OpResult REntry :=
  match ensureDataDirectory wf fs with
  | .error _ => ⟨.error (), fs⟩
  | .ok fs1 => addItemM REntry.mal_id (mkMangaItem now date m) m.mal_id wf fs1

/-- IPC-level `add-to-favorites` handler: constructor then
`addToFavorites(character)` (main.js:272-299). -/
def addFavoritesOp (now date : String) (wf : Bool) (fs : FileState FEntry)
    (c : Character) : OpResult FEntry :=
  match ensureDataDirectory wf fs with
  | .error _ => ⟨.error (), fs⟩
  | .ok fs1 => addItemM FEntry.mal_id (mkCharacterItem now date c) c.mal_id wf fs1

/-- IPC-level `remove-from-*` handler: constructor then the shared remove
body. -/
def removeOp {α : Type} (key : α → Int) (wf : Bool) (fs : FileState α)
    (id : Int) : OpResult α :=
  match ensureDataDirectory wf fs with
  | .error _ => ⟨.error (), fs⟩
  | .ok fs1 => removeFromWatchlistM key wf fs1 id

/-- IPC-level `update-watchlist` handler: constructor then
`updateWatchlist(id, data)` (main.js:334-354).  Only the watchlist kind has
an update operation wired through the bridge. -/
def updateOp (wf : Bool) (fs : FileState Entry) (id : Int)
    (u : Updates) : OpResult Entry :=
  match ensureDataDirectory wf fs with
  | .error _ => ⟨.error (), fs⟩
  | .ok fs1 => updateWatchlistM wf fs1 id u

/-- Renderer-side bridge-unavailable load path, `WatchlistManager.
loadWatchlist` (watchlist controller lines 28-42): the browser store holds
the parsed localStorage value when set (`saved ? JSON.parse(saved) : []`),
`none` when absent. -/
def loadWatchlistFallback {α : Type} (store : Option (List α)) : List α :=
  store.getD []

/-- Renderer-side bridge-unavailable add path, `SearchManager.addToWatchlist`
(search.js:363-379): without `window.electronAPI` the method only shows the
notification "Watchlist feature requires desktop app" and performs no
mutation of any local store. -/
def addToWatchlistFallback (store : Option (List Entry)) (_a : Anime) :
    Option (List Entry) :=
  store

/-- Renderer-side bridge-unavailable remove path, `FavoritesManager.
removeFavorite` (search.js:1511-1537): parse the stored value (or `[]`),
filter out entries whose `mal_id` matches, and write the result back. -/
def removeFavoriteFallback (store : Option (List FEntry)) (id : Int) :
    Option (List FEntry) :=
  some ((store.getD []).filter (fun f => f.mal_id != id))

/-- Modelled from the spec (§4.2, missing from src only insofar as the spec
states it as a requirement): "The two code paths must be observably
equivalent to a caller: same de-duplication-by-ID rule, same default field
values, same returned-collection-on-every-mutation behavior", instantiated
at the add operation on the watchlist kind: from corresponding states (the
browser store and the backing file both holding `es`), the fallback add
leaves the browser store holding exactly the collection the bridge add
returns. -/
def addPathsEquivalent : Prop :=
  ∀ (es : List Entry) (a : Anime) (now date : String),
    ∃ l2, (addOp now date false (.valid es) a).ret = .ok l2 ∧
      addToWatchlistFallback (some es) a = some l2

/-- Modelled from the spec (§4.6 failure semantics): "any I/O or parse
failure during a mutating operation propagates to the caller as a generic
failure condition ... no retry, no rollback — the file's prior
successfully-written content remains the durable state", instantiated at a
parse failure (corrupt backing file) during an add with all writes
succeeding: the operation would have to throw and leave the file's content
in place. -/
def parseFailurePropagates : Prop :=
  ∀ (now date : String) (a : Anime),
    (addOp now date false .corrupt a).ret = .error () ∧
      (addOp now date false .corrupt a).file = .corrupt

/-- Uniqueness invariant of §3: within one list no two entries share the
same external catalog ID (`key` projects an entry's `mal_id`). -/
def NodupKeys {α : Type} (key : α → Int) (l : List α) : Prop :=
  (l.map key).Nodup

instance {α : Type} (key : α → Int) (l : List α) : Decidable (NodupKeys key l) :=
  inferInstanceAs (Decidable (l.map key).Nodup)

/-- Concrete raw record of the spec's §8 scenario:
`{mal_id: 5114, title: "X"}` with no episodes, score or image fields. -/
def anime5114 : Anime :=
  { mal_id := 5114, title := some "X", image := none, episodes := none,
    score := none }

/-- Concrete watchlist entry with `mal_id` 1, used in counterexamples and
witnesses. -/
def entry1 : Entry :=
  mkAnimeItem "100" "2024-01-01T00:00:00.000Z"
    { mal_id := 1, title := some "A", image := none, episodes := some 12,
      score := some 8 }

/-- Concrete watchlist entry with `mal_id` 2, used in counterexamples and
witnesses. -/
def entry2 : Entry :=
  mkAnimeItem "200" "2024-01-02T00:00:00.000Z"
    { mal_id := 2, title := some "B", image := none, episodes := some 24,
      score := some 7 }

/-- Update object supplying only a new `mal_id` of 2, as the renderer could
send through the `update-watchlist` channel. -/
def updatesToMal2 : Updates := { mal_id := some 2 }

/-- Update object supplying only a new status, the typical shape sent by
`WatchlistManager.saveEdit`. -/
def updStatusWatching : Updates := { status := some "watching" }

/-- Concrete raw manga record used in witnesses. -/
def manga100 : Manga :=
  { mal_id := 100, title := some "M", image := none, chapters := none,
    score := none }

/-- Concrete raw character record used in witnesses. -/
def character7 : Character :=
  { mal_id := 7, name := some "C", image := none, animeTitle := none,
    favorites := none }

/-- Iterated `add-to-watchlist` calls with the same raw record: `ts` lists
the timestamp pair of each call, and the backing file state is threaded
from call to call. -/
def addIterFile (a : Anime) : List (String × String) → FileState Entry → FileState Entry
  | [], fs => fs
  | (n, d) :: ts, fs => addIterFile a ts ((addOp n d false fs a).file)

/-- Iterated `add-to-readinglist` calls with the same raw record. -/
def addIterFileR (m : Manga) : List (String × String) → FileState REntry → FileState REntry
  | [], fs => fs
  | (n, d) :: ts, fs => addIterFileR m ts ((addReadingOp n d false fs m).file)

/-- Iterated `add-to-favorites` calls with the same raw record. -/
def addIterFileF (c : Character) : List (String × String) → FileState FEntry → FileState FEntry
  | [], fs => fs
  | (n, d) :: ts, fs => addIterFileF c ts ((addFavoritesOp n d false fs c).file)

/-! Helper lemmas about the embedded operations. -/

/-- Absence of a match characterized through `find?`, the test the JS
duplicate guard `!list.find(...)` performs. -/
theorem find?_isNone_iff {α : Type} (p : α → Bool) (l : List α) :
    (l.find? p).isNone = true ↔ ∀ a ∈ l, ¬ p a = true := by
  rw [Option.isNone_iff_eq_none, List.find?_eq_none]

/-- Characterization of the shared add body on a parsable backing file with
writes succeeding: append exactly when no entry carries the record's ID. -/
theorem addItemM_valid_eq {α : Type} (key : α → Int) (item : α) (rid : Int)
    (es : List α) :
    addItemM key item rid false (.valid es) =
      if (es.find? (fun a => key a == rid)).isNone then
        ⟨.ok (es ++ [item]), .valid (es ++ [item])⟩
      else ⟨.ok es, .valid es⟩ := by
  by_cases h : (es.find? (fun a => key a == rid)).isNone
  · simp [addItemM, getWatchlistM, saveData, h]
  · simp [addItemM, getWatchlistM, saveData, h]

/-- On a parsable backing file the IPC-level watchlist add is the shared add
body (the constructor's `ensureDataDirectory` is the identity there). -/
theorem addOp_valid_eq (now date : String) (es : List Entry) (a : Anime) :
    addOp now date false (.valid es) a =
      addItemM Entry.mal_id (mkAnimeItem now date a) a.mal_id false (.valid es) := rfl

/-- Reading-list counterpart of `addOp_valid_eq`. -/
theorem addReadingOp_valid_eq (now date : String) (es : List REntry) (m : Manga) :
    addReadingOp now date false (.valid es) m =
      addItemM REntry.mal_id (mkMangaItem now date m) m.mal_id false (.valid es) := rfl

/-- Favorites counterpart of `addOp_valid_eq`. -/
theorem addFavoritesOp_valid_eq (now date : String) (es : List FEntry) (c : Character) :
    addFavoritesOp now date false (.valid es) c =
      addItemM FEntry.mal_id (mkCharacterItem now date c) c.mal_id false (.valid es) := rfl

/-- Appending an entry whose catalog ID occurs nowhere in the list keeps the
uniqueness invariant. -/
theorem nodupKeys_append_of_absent {α : Type} (key : α → Int) (es : List α)
    (item : α) (hn : NodupKeys key es) (habs : ∀ a ∈ es, key a ≠ key item) :
    NodupKeys key (es ++ [item]) := by
  unfold NodupKeys at *
  rw [List.map_append, List.nodup_append]
  refine ⟨hn, List.nodup_singleton _, ?_⟩
  intro x hx hy
  simp only [List.map_cons, List.map_nil, List.mem_singleton] at hy
  obtain ⟨a, ha, rfl⟩ := List.mem_map.mp hx
  exact habs a ha hy

/-- Filtering keeps the uniqueness invariant. -/
theorem nodupKeys_filter {α : Type} (key : α → Int) (p : α → Bool)
    (es : List α) (hn : NodupKeys key es) : NodupKeys key (es.filter p) :=
  List.Nodup.sublist (List.Sublist.map key (List.filter_sublist es)) hn

/-- Writing back the element already stored at an index is the identity. -/
theorem list_set_getElem_self {β : Type} (l : List β) (i : Nat)
    (h : i < l.length) : l.set i l[i] = l := by
  apply List.ext_getElem?
  intro j
  rw [List.getElem?_set]
  split
  · next hij => subst hij; simp [List.getElem?_eq_getElem h]
  · rfl

/-- Replacing one entry by an entry with the same catalog ID keeps the
uniqueness invariant. -/
theorem nodupKeys_set_key_eq {α : Type} (key : α → Int) (es : List α)
    (i : Nat) (x : α) (h : i < es.length) (hk : key x = key (es.getD i x))
    (hn : NodupKeys key es) : NodupKeys key (es.set i x) := by
  unfold NodupKeys at *
  rw [List.map_set, hk, List.getD_eq_getElem es x h]
  have hb : i < (es.map key).length := by simpa using h
  have hmap : key es[i] = (es.map key)[i] := by
    simp
  rw [hmap, list_set_getElem_self]
  exact hn

/-- Under the uniqueness invariant at most one entry matches a given
catalog ID. -/
theorem countP_le_one_of_nodupKeys {α : Type} (key : α → Int) (es : List α)
    (hn : NodupKeys key es) (rid : Int) :
    es.countP (fun a => key a == rid) ≤ 1 := by
  have h1 : es.countP (fun a => key a == rid) =
      (es.map key).countP (fun k => k == rid) := by
    rw [List.countP_map]
    rfl
  rw [h1, ← List.count_eq_countP]
  exact List.nodup_iff_count_le_one.mp hn rid

/-- The shared add body on a parsable, duplicate-free backing file with
writes succeeding: it yields some persisted list that is returned whole,
keeps the invariant, and contains exactly one entry with the record's ID. -/
theorem addItemM_count {α : Type} (key : α → Int) (item : α) (rid : Int)
    (hk : key item = rid) (es : List α) (hn : NodupKeys key es) :
    ∃ es', addItemM key item rid false (.valid es) = ⟨.ok es', .valid es'⟩ ∧
      NodupKeys key es' ∧ es'.countP (fun a => key a == rid) = 1 := by
  rw [addItemM_valid_eq]
  by_cases h : (es.find? (fun a => key a == rid)).isNone
  · refine ⟨es ++ [item], by simp [h], ?_, ?_⟩
    · refine nodupKeys_append_of_absent key es item hn ?_
      intro a ha he
      have hne := (find?_isNone_iff (fun a => key a == rid) es).mp h a ha
      rw [he, hk] at hne
      exact hne (beq_self_eq_true rid)
    · rw [List.countP_append]
      have h0 : es.countP (fun a => key a == rid) = 0 :=
        List.countP_eq_zero.mpr ((find?_isNone_iff (fun a => key a == rid) es).mp h)
      simp [h0, hk]
  · refine ⟨es, by simp [h], hn, ?_⟩
    have hsome : (es.find? (fun a => key a == rid)).isSome = true := by
      cases hfind : es.find? (fun a => key a == rid) <;> simp [hfind] at h ⊢
    have hpos : 0 < es.countP (fun a => key a == rid) :=
      List.countP_pos_iff.mpr (List.find?_isSome.mp hsome)
    exact Nat.le_antisymm (countP_le_one_of_nodupKeys key es hn rid) hpos

/-- The IPC-level watchlist add is a no-op (returning the list as read, with
no write) as soon as some entry already carries the record's ID. -/
theorem addOp_noop (now date : String) (es : List Entry) (a : Anime)
    (h : ¬ (es.find? (fun e => e.mal_id == a.mal_id)).isNone = true) :
    addOp now date false (.valid es) a = ⟨.ok es, .valid es⟩ := by
  rw [addOp_valid_eq, addItemM_valid_eq, if_neg h]

/-- Once an entry with the record's ID is present, any further sequence of
add calls leaves the backing file unchanged. -/
theorem addIterFile_noop (a : Anime) (ts : List (String × String))
    (es : List Entry) (h : 0 < es.countP (fun e => e.mal_id == a.mal_id)) :
    addIterFile a ts (.valid es) = .valid es := by
  induction ts with
  | nil => rfl
  | cons t ts ih =>
    obtain ⟨n, d⟩ := t
    show addIterFile a ts (addOp n d false (.valid es) a).file = .valid es
    rw [addOp_noop n d es a ?_]
    · exact ih
    · obtain ⟨x, hx, hpx⟩ := List.countP_pos_iff.mp h
      have hsome : (es.find? (fun e => e.mal_id == a.mal_id)).isSome = true :=
        List.find?_isSome.mpr ⟨x, hx, hpx⟩
      intro hnone
      rw [Option.isNone_iff_eq_none.mp hnone] at hsome
      exact Bool.noConfusion hsome

/-- The shared add body is a no-op (no write, list returned as read) as soon
as some entry already matches the record's ID. -/
theorem addItemM_noop {α : Type} (key : α → Int) (item : α) (rid : Int)
    (es : List α) (h : (es.find? (fun a => key a == rid)).isSome = true) :
    addItemM key item rid false (.valid es) = ⟨.ok es, .valid es⟩ := by
  rw [addItemM_valid_eq, if_neg]
  intro hnone
  rw [Option.isNone_iff_eq_none.mp hnone] at h
  exact Bool.noConfusion h

/-- Once an entry with the record's ID is present, any further sequence of
reading-list add calls leaves the backing file unchanged. -/
theorem addIterFileR_noop (m : Manga) (ts : List (String × String))
    (es : List REntry) (h : 0 < es.countP (fun e => e.mal_id == m.mal_id)) :
    addIterFileR m ts (.valid es) = .valid es := by
  induction ts with
  | nil => rfl
  | cons t ts ih =>
    obtain ⟨n, d⟩ := t
    show addIterFileR m ts (addReadingOp n d false (.valid es) m).file =
      .valid es
    have hnoop : addReadingOp n d false (.valid es) m = ⟨.ok es, .valid es⟩ := by
      rw [addReadingOp_valid_eq]
      exact addItemM_noop REntry.mal_id _ _ es
        (List.find?_isSome.mpr (List.countP_pos_iff.mp h))
    rw [hnoop]
    exact ih

/-- Once an entry with the record's ID is present, any further sequence of
favorites add calls leaves the backing file unchanged. -/
theorem addIterFileF_noop (c : Character) (ts : List (String × String))
    (es : List FEntry) (h : 0 < es.countP (fun e => e.mal_id == c.mal_id)) :
    addIterFileF c ts (.valid es) = .valid es := by
  induction ts with
  | nil => rfl
  | cons t ts ih =>
    obtain ⟨n, d⟩ := t
    show addIterFileF c ts (addFavoritesOp n d false (.valid es) c).file =
      .valid es
    have hnoop : addFavoritesOp n d false (.valid es) c = ⟨.ok es, .valid es⟩ := by
      rw [addFavoritesOp_valid_eq]
      exact addItemM_noop FEntry.mal_id _ _ es
        (List.find?_isSome.mpr (List.countP_pos_iff.mp h))
    rw [hnoop]
    exact ih

/-! Claim theorems. -/

/-- C5: adding the record `{mal_id: 5114, title: "X"}` (no episodes, score
or image fields) to an empty watchlist yields a one-entry collection whose
entry has status `"planning"`, `episodes_watched = 0`, and every absent
numeric field (`episodes`, `score`, `rating`) defaulted to 0; adding the
same record again leaves the collection at that same single entry. -/
theorem C5_add_scenario (n1 d1 n2 d2 : String) :
    ∃ e : Entry,
      (addOp n1 d1 false (.valid []) anime5114).ret = .ok [e] ∧
      e.status = "planning" ∧ e.episodes_watched = 0 ∧ e.episodes = 0 ∧
      e.score = 0 ∧ e.rating = 0 ∧ e.mal_id = 5114 ∧
      (addOp n2 d2 false (addOp n1 d1 false (.valid []) anime5114).file
          anime5114).ret = .ok [e] :=
  ⟨mkAnimeItem n1 d1 anime5114, rfl, rfl, rfl, rfl, rfl, rfl, rfl, rfl⟩

/-- C6: for every list kind and ID, remove returns and persists exactly the
input list with every matching entry filtered out, so a subsequent get
contains no entry with that ID, removal of an absent ID returns the
collection unchanged, and the relative order of the remaining entries is
preserved (the result is a sublist of the input). -/
theorem C6_remove_spec (α : Type) (key : α → Int) (es : List α) (id : Int) :
    (removeOp key false (.valid es) id).ret =
        .ok (es.filter (fun a => key a != id)) ∧
      (removeOp key false (.valid es) id).file =
        .valid (es.filter (fun a => key a != id)) ∧
      (getOp false (removeOp key false (.valid es) id).file).ret =
        .ok (es.filter (fun a => key a != id)) ∧
      (∀ a ∈ es.filter (fun a => key a != id), key a ≠ id) ∧
      (es.filter (fun a => key a != id)).Sublist es ∧
      ((∀ a ∈ es, key a ≠ id) →
        (removeOp key false (.valid es) id).ret = .ok es) := by
  refine ⟨rfl, rfl, rfl, ?_, List.filter_sublist es, ?_⟩
  · intro a ha
    exact bne_iff_ne.mp (List.mem_filter.mp ha).2
  · intro hall
    have hfix : es.filter (fun a => key a != id) = es :=
      List.filter_eq_self.mpr (fun a ha => bne_iff_ne.mpr (hall a ha))
    calc (removeOp key false (.valid es) id).ret
        = .ok (es.filter (fun a => key a != id)) := rfl
      _ = .ok es := by rw [hfix]

/-- Witness for C6 at the spec's §8 scenario: from `[{mal_id: 1},
{mal_id: 2}]`, `remove(1)` yields exactly `[{mal_id: 2}]`, and removing the
now-absent ID 1 leaves the collection unchanged. -/
theorem C6_remove_spec_witness :
    (removeOp Entry.mal_id false (.valid [entry1, entry2]) 1).ret =
        .ok [entry2] ∧
      (removeOp Entry.mal_id false (.valid [entry2]) 1).ret = .ok [entry2] := by
  constructor
  · rw [(C6_remove_spec Entry Entry.mal_id [entry1, entry2] 1).1]
    rfl
  · exact (C6_remove_spec Entry Entry.mal_id [entry2] 1).2.2.2.2.2 (by decide)

/-- C8: for every list kind, a get on a corrupt (unparsable, non-blank)
backing file returns the empty collection without surfacing an error, resets
the backing file to the empty array, and a subsequent get again returns the
empty collection. -/
theorem C8_get_corrupt_resets (α : Type) :
    (getOp (α := α) false .corrupt).ret = .ok [] ∧
      (getOp (α := α) false .corrupt).file = .valid [] ∧
      (getOp (α := α) false (getOp (α := α) false .corrupt).file).ret =
        .ok [] :=
  ⟨rfl, rfl, rfl⟩

/-- C9: for every list kind, a get when the backing file is missing returns
the empty sequence and, through the constructor's `ensureDataDirectory`,
creates the backing file holding the empty array. -/
theorem C9_get_missing_creates_file (α : Type) :
    (getOp (α := α) false .missing).ret = .ok [] ∧
      (getOp (α := α) false .missing).file = .valid [] :=
  ⟨rfl, rfl⟩

/-- C10: for every list kind, a get on an existing backing file whose content
is empty or whitespace-only returns the empty collection and leaves the file
untouched; the file-reset repair fires only when parsing throws (corrupt
content), not when the file is merely blank. -/
theorem C10_get_blank_no_reset (α : Type) :
    (getOp (α := α) false .blank).ret = .ok [] ∧
      (getOp (α := α) false .blank).file = .blank ∧
      (getOp (α := α) false .corrupt).file = .valid [] :=
  ⟨rfl, rfl, rfl⟩

/-- C4: for every list kind, every record with a catalog ID, and every
non-empty sequence of consecutive add calls with that record (each call with
its own timestamps), starting from a duplicate-free list, a subsequent get
returns a collection containing exactly one entry whose `mal_id` equals the
record's — proved separately for the watchlist, reading-list and favorites
add implementations (main.js:205-237, 239-270, 272-299). -/
theorem C4_idempotent_add :
    (∀ (ts : List (String × String)) (es : List Entry) (a : Anime),
      ts ≠ [] → NodupKeys Entry.mal_id es →
      ∃ es', (getOp false (addIterFile a ts (.valid es))).ret = .ok es' ∧
        es'.countP (fun e => e.mal_id == a.mal_id) = 1) ∧
    (∀ (ts : List (String × String)) (es : List REntry) (m : Manga),
      ts ≠ [] → NodupKeys REntry.mal_id es →
      ∃ es', (getOp false (addIterFileR m ts (.valid es))).ret = .ok es' ∧
        es'.countP (fun e => e.mal_id == m.mal_id) = 1) ∧
    (∀ (ts : List (String × String)) (es : List FEntry) (c : Character),
      ts ≠ [] → NodupKeys FEntry.mal_id es →
      ∃ es', (getOp false (addIterFileF c ts (.valid es))).ret = .ok es' ∧
        es'.countP (fun e => e.mal_id == c.mal_id) = 1) := by
  refine ⟨?_, ?_, ?_⟩
  · intro ts es a hts hn
    cases ts with
    | nil => exact absurd rfl hts
    | cons t ts =>
      obtain ⟨n, d⟩ := t
      obtain ⟨es', heq, hn', hcount⟩ :=
        addItemM_count Entry.mal_id (mkAnimeItem n d a) a.mal_id rfl es hn
      have hfile : (addOp n d false (.valid es) a).file = .valid es' := by
        rw [addOp_valid_eq, heq]
      have hunfold : addIterFile a ((n, d) :: ts) (.valid es) =
          addIterFile a ts ((addOp n d false (.valid es) a).file) := rfl
      rw [hunfold, hfile, addIterFile_noop a ts es' (by omega)]
      exact ⟨es', rfl, hcount⟩
  · intro ts es m hts hn
    cases ts with
    | nil => exact absurd rfl hts
    | cons t ts =>
      obtain ⟨n, d⟩ := t
      obtain ⟨es', heq, hn', hcount⟩ :=
        addItemM_count REntry.mal_id (mkMangaItem n d m) m.mal_id rfl es hn
      have hfile : (addReadingOp n d false (.valid es) m).file = .valid es' := by
        rw [addReadingOp_valid_eq, heq]
      have hunfold : addIterFileR m ((n, d) :: ts) (.valid es) =
          addIterFileR m ts ((addReadingOp n d false (.valid es) m).file) := rfl
      rw [hunfold, hfile, addIterFileR_noop m ts es' (by omega)]
      exact ⟨es', rfl, hcount⟩
  · intro ts es c hts hn
    cases ts with
    | nil => exact absurd rfl hts
    | cons t ts =>
      obtain ⟨n, d⟩ := t
      obtain ⟨es', heq, hn', hcount⟩ :=
        addItemM_count FEntry.mal_id (mkCharacterItem n d c) c.mal_id rfl es hn
      have hfile : (addFavoritesOp n d false (.valid es) c).file = .valid es' := by
        rw [addFavoritesOp_valid_eq, heq]
      have hunfold : addIterFileF c ((n, d) :: ts) (.valid es) =
          addIterFileF c ts ((addFavoritesOp n d false (.valid es) c).file) := rfl
      rw [hunfold, hfile, addIterFileF_noop c ts es' (by omega)]
      exact ⟨es', rfl, hcount⟩

/-- Witness for C4: two consecutive adds of a concrete record to the empty
list of each kind leave exactly one entry with its catalog ID. -/
theorem C4_idempotent_add_witness :
    (∃ es', (getOp false (addIterFile anime5114 [("1", "d1"), ("2", "d2")]
        (.valid []))).ret = .ok es' ∧
      es'.countP (fun e => e.mal_id == anime5114.mal_id) = 1) ∧
    (∃ es', (getOp false (addIterFileR manga100 [("1", "d1"), ("2", "d2")]
        (.valid []))).ret = .ok es' ∧
      es'.countP (fun e => e.mal_id == manga100.mal_id) = 1) ∧
    (∃ es', (getOp false (addIterFileF character7 [("1", "d1"), ("2", "d2")]
        (.valid []))).ret = .ok es' ∧
      es'.countP (fun e => e.mal_id == character7.mal_id) = 1) :=
  ⟨C4_idempotent_add.1 [("1", "d1"), ("2", "d2")] [] anime5114
      (by decide) (by decide),
    C4_idempotent_add.2.1 [("1", "d1"), ("2", "d2")] [] manga100
      (by decide) (by decide),
    C4_idempotent_add.2.2 [("1", "d1"), ("2", "d2")] [] character7
      (by decide) (by decide)⟩

/-- C7: on a parsable watchlist, update on a present ID returns and persists
the list with exactly the located entry shallow-merged — every supplied
field overwrites, every unsupplied field keeps its prior value, and every
other entry (and every other position) is untouched — while update on an
absent ID returns the list as read and persists nothing. -/
theorem C7_update_frame (es : List Entry) (id : Int) (u : Updates) :
    (es.findIdx? (fun a => a.mal_id == id) = none →
      (updateOp false (.valid es) id u).ret = .ok es ∧
      (updateOp false (.valid es) id u).file = .valid es) ∧
    (∀ i, es.findIdx? (fun a => a.mal_id == id) = some i →
      ∃ l2, (updateOp false (.valid es) id u).ret = .ok l2 ∧
        (updateOp false (.valid es) id u).file = .valid l2 ∧
        l2.length = es.length ∧
        (∀ j, j ≠ i → l2[j]? = es[j]?) ∧
        l2[i]? = (es[i]?).map (fun e => mergeEntry e u)) ∧
    (∀ e : Entry,
      (u.id = none → (mergeEntry e u).id = e.id) ∧
      (∀ v, u.id = some v → (mergeEntry e u).id = v) ∧
      (u.mal_id = none → (mergeEntry e u).mal_id = e.mal_id) ∧
      (∀ v, u.mal_id = some v → (mergeEntry e u).mal_id = v) ∧
      (u.title = none → (mergeEntry e u).title = e.title) ∧
      (∀ v, u.title = some v → (mergeEntry e u).title = v) ∧
      (u.image = none → (mergeEntry e u).image = e.image) ∧
      (∀ v, u.image = some v → (mergeEntry e u).image = v) ∧
      (u.episodes = none → (mergeEntry e u).episodes = e.episodes) ∧
      (∀ v, u.episodes = some v → (mergeEntry e u).episodes = v) ∧
      (u.score = none → (mergeEntry e u).score = e.score) ∧
      (∀ v, u.score = some v → (mergeEntry e u).score = v) ∧
      (u.episodes_watched = none →
        (mergeEntry e u).episodes_watched = e.episodes_watched) ∧
      (∀ v, u.episodes_watched = some v →
        (mergeEntry e u).episodes_watched = v) ∧
      (u.status = none → (mergeEntry e u).status = e.status) ∧
      (∀ v, u.status = some v → (mergeEntry e u).status = v) ∧
      (u.rating = none → (mergeEntry e u).rating = e.rating) ∧
      (∀ v, u.rating = some v → (mergeEntry e u).rating = v) ∧
      (u.notes = none → (mergeEntry e u).notes = e.notes) ∧
      (∀ v, u.notes = some v → (mergeEntry e u).notes = v) ∧
      (u.added_date = none → (mergeEntry e u).added_date = e.added_date) ∧
      (∀ v, u.added_date = some v → (mergeEntry e u).added_date = v)) := by
  refine ⟨?_, ?_, ?_⟩
  · intro h
    constructor <;>
      simp [updateOp, ensureDataDirectory, updateWatchlistM, getWatchlistM, h]
  · intro i h
    have hi : i < es.length := (List.findIdx?_eq_some_iff_findIdx_eq.mp h).1
    refine ⟨es.set i (mergeEntry (es.getD i dEntry) u), ?_, ?_, ?_, ?_, ?_⟩
    · simp [updateOp, ensureDataDirectory, updateWatchlistM, getWatchlistM,
        saveData, h]
    · simp [updateOp, ensureDataDirectory, updateWatchlistM, getWatchlistM,
        saveData, h]
    · simp
    · intro j hj
      exact List.getElem?_set_ne (fun hh => hj hh.symm)
    · rw [List.getElem?_set_self (by simpa using hi),
        List.getElem?_eq_getElem hi, List.getD_eq_getElem es dEntry hi]
      rfl
  · intro e
    refine ⟨?_, ?_, ?_, ?_, ?_, ?_, ?_, ?_, ?_, ?_, ?_, ?_, ?_, ?_, ?_, ?_,
      ?_, ?_, ?_, ?_, ?_, ?_⟩ <;>
      (intros; simp_all [mergeEntry])

/-- Witness for C7: updating entry 2's status to `"watching"` changes that
entry by the shallow merge, leaves entry 1 untouched, and updating the
absent ID 3 returns the list unchanged. -/
theorem C7_update_frame_witness :
    ∃ l2, (updateOp false (.valid [entry1, entry2]) 2 updStatusWatching).ret =
        .ok l2 ∧
      l2[1]? = some (mergeEntry entry2 updStatusWatching) ∧
      l2[0]? = some entry1 ∧
      (updateOp false (.valid [entry1, entry2]) 3 updStatusWatching).ret =
        .ok [entry1, entry2] := by
  obtain ⟨l2, h1, _h2, _h3, h4, h5⟩ :=
    (C7_update_frame [entry1, entry2] 2 updStatusWatching).2.1 1 (by decide)
  refine ⟨l2, h1, ?_, ?_, ?_⟩
  · simpa using h5
  · simpa using h4 0 (by decide)
  · exact ((C7_update_frame [entry1, entry2] 3 updStatusWatching).1
      (by decide)).1

/-- C1 (counterexample): the uniqueness invariant is not preserved by
`update-watchlist` as the claim states it.  From the duplicate-free state
`[{mal_id: 1}, {mal_id: 2}]`, the update `update(1, {mal_id: 2})` — a
partial field set the shallow merge `{ ...watchlist[index], ...updates }`
accepts — returns and persists a list in which two entries share
`mal_id` 2. -/
theorem C1_update_counterexample :
    NodupKeys Entry.mal_id [entry1, entry2] ∧
      (updateOp false (.valid [entry1, entry2]) 1 updatesToMal2).ret =
        .ok [mergeEntry entry1 updatesToMal2, entry2] ∧
      (updateOp false (.valid [entry1, entry2]) 1 updatesToMal2).file =
        .valid [mergeEntry entry1 updatesToMal2, entry2] ∧
      ¬ NodupKeys Entry.mal_id [mergeEntry entry1 updatesToMal2, entry2] :=
  ⟨by decide, rfl, rfl, by decide⟩

/-- C1 (amended): starting from a duplicate-free list, get, add (for each of
the three list kinds) and remove preserve the uniqueness invariant, and
update preserves it whenever the partial field set does not supply the
`mal_id` field. -/
theorem C1_uniqueness_invariant :
    (∀ (α : Type) (key : α → Int) (es : List α), NodupKeys key es →
      ∃ l, (getOp false (.valid es)).ret = .ok l ∧
        (getOp false (.valid es)).file = .valid l ∧ NodupKeys key l) ∧
    (∀ (now date : String) (es : List Entry) (a : Anime),
      NodupKeys Entry.mal_id es →
      ∃ l, (addOp now date false (.valid es) a).ret = .ok l ∧
        (addOp now date false (.valid es) a).file = .valid l ∧
        NodupKeys Entry.mal_id l) ∧
    (∀ (now date : String) (es : List REntry) (m : Manga),
      NodupKeys REntry.mal_id es →
      ∃ l, (addReadingOp now date false (.valid es) m).ret = .ok l ∧
        (addReadingOp now date false (.valid es) m).file = .valid l ∧
        NodupKeys REntry.mal_id l) ∧
    (∀ (now date : String) (es : List FEntry) (c : Character),
      NodupKeys FEntry.mal_id es →
      ∃ l, (addFavoritesOp now date false (.valid es) c).ret = .ok l ∧
        (addFavoritesOp now date false (.valid es) c).file = .valid l ∧
        NodupKeys FEntry.mal_id l) ∧
    (∀ (α : Type) (key : α → Int) (es : List α) (id : Int),
      NodupKeys key es →
      ∃ l, (removeOp key false (.valid es) id).ret = .ok l ∧
        (removeOp key false (.valid es) id).file = .valid l ∧
        NodupKeys key l) ∧
    (∀ (es : List Entry) (id : Int) (u : Updates), u.mal_id = none →
      NodupKeys Entry.mal_id es →
      ∃ l, (updateOp false (.valid es) id u).ret = .ok l ∧
        (updateOp false (.valid es) id u).file = .valid l ∧
        NodupKeys Entry.mal_id l) := by
  refine ⟨?_, ?_, ?_, ?_, ?_, ?_⟩
  · intro α key es hn
    exact ⟨es, rfl, rfl, hn⟩
  · intro now date es a hn
    obtain ⟨l, heq, hn', _⟩ :=
      addItemM_count Entry.mal_id (mkAnimeItem now date a) a.mal_id rfl es hn
    exact ⟨l, by rw [addOp_valid_eq, heq], by rw [addOp_valid_eq, heq], hn'⟩
  · intro now date es m hn
    obtain ⟨l, heq, hn', _⟩ :=
      addItemM_count REntry.mal_id (mkMangaItem now date m) m.mal_id rfl es hn
    exact ⟨l, by rw [addReadingOp_valid_eq, heq],
      by rw [addReadingOp_valid_eq, heq], hn'⟩
  · intro now date es c hn
    obtain ⟨l, heq, hn', _⟩ :=
      addItemM_count FEntry.mal_id (mkCharacterItem now date c) c.mal_id rfl
        es hn
    exact ⟨l, by rw [addFavoritesOp_valid_eq, heq],
      by rw [addFavoritesOp_valid_eq, heq], hn'⟩
  · intro α key es id hn
    exact ⟨es.filter (fun a => key a != id), rfl, rfl,
      nodupKeys_filter key _ es hn⟩
  · intro es id u hmal hn
    cases hidx : es.findIdx? (fun a => a.mal_id == id) with
    | none =>
      refine ⟨es, ?_, ?_, hn⟩ <;>
        simp [updateOp, ensureDataDirectory, updateWatchlistM, getWatchlistM,
          hidx]
    | some i =>
      have hi : i < es.length :=
        (List.findIdx?_eq_some_iff_findIdx_eq.mp hidx).1
      refine ⟨es.set i (mergeEntry (es.getD i dEntry) u), ?_, ?_, ?_⟩
      · simp [updateOp, ensureDataDirectory, updateWatchlistM, getWatchlistM,
          saveData, hidx]
      · simp [updateOp, ensureDataDirectory, updateWatchlistM, getWatchlistM,
          saveData, hidx]
      · refine nodupKeys_set_key_eq Entry.mal_id es i _ hi ?_ hn
        rw [List.getD_eq_getElem es dEntry hi, List.getD_eq_getElem es _ hi]
        simp [mergeEntry, hmal]

/-- Witness for C1 (amended): adding a fresh record to the duplicate-free
two-entry list keeps the invariant. -/
theorem C1_uniqueness_invariant_witness :
    ∃ l, (addOp "300" "d3" false (.valid [entry1, entry2]) anime5114).ret =
        .ok l ∧ NodupKeys Entry.mal_id l := by
  obtain ⟨l, h1, _, h3⟩ := C1_uniqueness_invariant.2.1 "300" "d3"
    [entry1, entry2] anime5114 (by decide)
  exact ⟨l, h1, h3⟩

/-- C2 (counterexample): the bridge path and the bridge-unavailable fallback
path are not observably equivalent for add.  With an empty store on both
sides, the bridge add of the §8 record returns a one-entry collection while
the fallback add (`SearchManager.addToWatchlist` without `electronAPI`)
performs no mutation at all, so the spec-modelled equivalence fails. -/
theorem C2_add_fallback_counterexample : ¬ addPathsEquivalent := by
  intro h
  obtain ⟨l2, h1, h2⟩ := h [] anime5114 "0" "d"
  have hcomp : (addOp "0" "d" false (.valid []) anime5114).ret =
      .ok [mkAnimeItem "0" "d" anime5114] := rfl
  rw [hcomp] at h1
  injection h1 with h1'
  have h2' : some ([] : List Entry) = some l2 := h2
  injection h2' with h2''
  rw [← h2''] at h1'
  exact List.noConfusion h1'

/-- C2 (amended): the bridge and fallback paths agree on the read path (the
fallback load returns exactly what the bridge get returns, both for a
populated and for an absent store) and on the remove-by-ID rule (the
fallback favorites removal stores exactly the collection the bridge remove
returns); the add operations, by contrast, have no fallback implementation
(see the counterexample). -/
theorem C2_get_remove_equivalence (es : List Entry) (fes : List FEntry)
    (id : Int) :
    loadWatchlistFallback (some es) = es ∧
      (getOp false (.valid es)).ret = .ok es ∧
      loadWatchlistFallback (α := Entry) none = [] ∧
      (getOp (α := Entry) false .missing).ret = .ok [] ∧
      removeFavoriteFallback (some fes) id =
        some (fes.filter (fun f => f.mal_id != id)) ∧
      (removeOp FEntry.mal_id false (.valid fes) id).ret =
        .ok (fes.filter (fun f => f.mal_id != id)) :=
  ⟨rfl, rfl, rfl, rfl, rfl, rfl⟩

/-- C3 (counterexample): a parse failure during a mutating operation does
not propagate to the caller, and the file's prior content does not remain
the durable state.  On a corrupt backing file, `add-to-watchlist` succeeds
(the read phase silently resets the file to the empty array) and the
operation then overwrites it with the one-entry list. -/
theorem C3_parse_failure_counterexample : ¬ parseFailurePropagates := by
  intro h
  have h1 := (h "0" "d" anime5114).1
  have hcomp : (addOp "0" "d" false .corrupt anime5114).ret =
      .ok [mkAnimeItem "0" "d" anime5114] := rfl
  rw [hcomp] at h1
  exact Except.noConfusion h1

/-- C3 (amended): a write failure during the persist step of a mutating
operation propagates to the caller as an error, and the backing file's
prior successfully-written content remains the durable state: this holds
for remove on any list kind, for each of the three add implementations
(watchlist main.js:205-237, reading list main.js:239-270, favorites
main.js:272-299) when the record is absent (so that a persist is
attempted), and for update when the ID is present. -/
theorem C3_write_failure_propagates (α : Type) (key : α → Int)
    (es : List α) (id : Int) :
    ((removeOp key true (.valid es) id).ret = .error () ∧
      (removeOp key true (.valid es) id).file = .valid es) ∧
    (∀ (now date : String) (esw : List Entry) (a : Anime),
      (esw.find? (fun e => e.mal_id == a.mal_id)).isNone = true →
      (addOp now date true (.valid esw) a).ret = .error () ∧
      (addOp now date true (.valid esw) a).file = .valid esw) ∧
    (∀ (now date : String) (esr : List REntry) (m : Manga),
      (esr.find? (fun e => e.mal_id == m.mal_id)).isNone = true →
      (addReadingOp now date true (.valid esr) m).ret = .error () ∧
      (addReadingOp now date true (.valid esr) m).file = .valid esr) ∧
    (∀ (now date : String) (esf : List FEntry) (c : Character),
      (esf.find? (fun e => e.mal_id == c.mal_id)).isNone = true →
      (addFavoritesOp now date true (.valid esf) c).ret = .error () ∧
      (addFavoritesOp now date true (.valid esf) c).file = .valid esf) ∧
    (∀ (esw : List Entry) (id2 : Int) (u : Updates) (i : Nat),
      esw.findIdx? (fun e => e.mal_id == id2) = some i →
      (updateOp true (.valid esw) id2 u).ret = .error () ∧
      (updateOp true (.valid esw) id2 u).file = .valid esw) := by
  refine ⟨⟨rfl, rfl⟩, ?_, ?_, ?_, ?_⟩
  · intro now date esw a habs
    constructor <;>
      simp [addOp, ensureDataDirectory, addItemM, getWatchlistM, saveData,
        habs]
  · intro now date esr m habs
    constructor <;>
      simp [addReadingOp, ensureDataDirectory, addItemM, getWatchlistM,
        saveData, habs]
  · intro now date esf c habs
    constructor <;>
      simp [addFavoritesOp, ensureDataDirectory, addItemM, getWatchlistM,
        saveData, habs]
  · intro esw id2 u i hidx
    constructor <;>
      simp [updateOp, ensureDataDirectory, updateWatchlistM, getWatchlistM,
        saveData, hidx]

/-- Witness for C3 (amended): with failing writes, remove, add-of-absent on
each of the three kinds, and update-of-present all surface an error. -/
theorem C3_write_failure_propagates_witness :
    (removeOp Entry.mal_id true (.valid [entry1]) 1).ret = .error () ∧
      (addOp "0" "d" true (.valid []) anime5114).ret = .error () ∧
      (addReadingOp "0" "d" true (.valid []) manga100).ret = .error () ∧
      (addFavoritesOp "0" "d" true (.valid []) character7).ret = .error () ∧
      (updateOp true (.valid [entry1]) 1 updStatusWatching).ret =
        .error () := by
  refine ⟨(C3_write_failure_propagates Entry Entry.mal_id [entry1] 1).1.1,
    ?_, ?_, ?_, ?_⟩
  · exact ((C3_write_failure_propagates Entry Entry.mal_id [entry1] 1).2.1
      "0" "d" [] anime5114 (by decide)).1
  · exact ((C3_write_failure_propagates Entry Entry.mal_id [entry1] 1).2.2.1
      "0" "d" [] manga100 (by decide)).1
  · exact ((C3_write_failure_propagates Entry Entry.mal_id [entry1] 1).2.2.2.1
      "0" "d" [] character7 (by decide)).1
  · exact ((C3_write_failure_propagates Entry Entry.mal_id [entry1] 1).2.2.2.2
      [entry1] 1 updStatusWatching 0 (by decide)).1

end AniToWatch
